import Mathlib

/-!
Verification model of `docs/scripts/import_google_docs.py`.

The script ingests a conversational-script JSON file into a Neo4j graph.
We embed it shallowly:

* JSON values/records are an inductive `JValue` / association lists.
* Python string operations (slicing, `startswith`, `endswith`, `isdigit`,
  digit extraction, `int()`) are modelled on `List Char`; `str.isdigit`
  digit characters are modelled as ASCII digits.
* Each `session.run(...)` Cypher statement is a `Stmt`; its MERGE/MATCH
  semantics over the graph is `applyStmt` on an explicit `Graph` state.
* The UUID module is modelled as a stream `gen : Nat -> String` indexed by
  a counter threaded through the run (index order = generation order:
  `uuid1` first, then the root id, then one id per turn).  Freshness of
  real UUIDs becomes explicit injectivity hypotheses on `gen`.
* `timestamp()` is modelled as the invocation's clock value `now`.
* I/O effects (connection verification, session open, file read, statement
  execution, closing) are recorded as an ordered `Event` trace so that
  claims about effect ordering and resource release are statable.
* `import_file` takes the already-parsed path segments
  (`pathlib.Path(...).parts`) and the already-parsed JSON payload (a list
  of records); JSON decoding itself is outside the claims.
-/

/-- A JSON value (the fragment needed by the script payloads). -/
inductive JValue where
  | str (s : String)
  | int (n : Int)
  | bool (b : Bool)
  | null
deriving DecidableEq, Repr

/-- A JSON object: an association list from field names to values
(keys coming from `json.loads` are unique; lookup takes the first hit). -/
abbrev JRecord := List (String × JValue)

/-- Python `''.join(ch for ch in s if ch.isdigit())`, as the list of digit
characters of `s` (digits modelled as ASCII digits). -/
def pyDigits (s : String) : List Char :=
  s.toList.filter Char.isDigit

/-- Python `int(...)` on a string of digit characters (and `int('' or 0) = 0`
via the empty fold). -/
def pyToNat (cs : List Char) : Nat :=
  cs.foldl (fun acc c => 10 * acc + (c.toNat - 48)) 0

/-- The ordering key `int(''.join(ch for ch in s if ch.isdigit()) or 0)`. -/
def pySeqKey (s : String) : Nat :=
  pyToNat (pyDigits s)

/-- Python `s.startswith(p)`. -/
def pyStartsWith (s p : String) : Prop :=
  s.toList.take p.toList.length = p.toList

instance (s p : String) : Decidable (pyStartsWith s p) := by
  unfold pyStartsWith; infer_instance

/-- Python slice `s[n:]`. -/
def pyDrop (s : String) (n : Nat) : List Char :=
  s.toList.drop n

/-- Python `cs.isdigit()` on a character list: non-empty and all digits. -/
def pyIsDigits (cs : List Char) : Prop :=
  cs ≠ [] ∧ ∀ c ∈ cs, c.isDigit

instance (cs : List Char) : Decidable (pyIsDigits cs) := by
  unfold pyIsDigits; infer_instance

/-- Python `s.endswith(p)`. -/
def pyEndsWith (s p : String) : Prop :=
  p.toList.length ≤ s.toList.length ∧
    s.toList.drop (s.toList.length - p.toList.length) = p.toList

instance (s p : String) : Decidable (pyEndsWith s p) := by
  unfold pyEndsWith; infer_instance

/-- Python slice `s[:-n]`. -/
def pyDropRight (s : String) (n : Nat) : String :=
  String.mk (s.toList.take (s.toList.length - n))

deriving instance DecidableEq for Except

/-- The error kinds raised by the importer (`ValueError` in the source; the
spec's taxonomy names the path-shape failures `PathFormatError` and the
turn-shape failures `TurnSchemaError`).  The payload is the source's message. -/
inductive ImpError where
  | pathFormat (msg : String)
  | turnSchema (msg : String)
deriving DecidableEq, Repr

/-- Catalog coordinates extracted from the last four path segments. -/
structure Coords where
  program_name : String
  program_seq : Nat
  module_seq : Nat
  day_seq : Nat
  persona_name : String
  persona_seq : Nat
deriving DecidableEq, Repr

/-- Path-structure parsing and validation of `import_file` (source lines
130–175), over the segment list `pathlib.Path(json_file_path).parts`.
Negative indices `paths_list[-4] .. paths_list[-1]` become length-based
indexing. -/
def parsePath (paths_list : List String) : Except ImpError Coords :=
  if paths_list.length < 4 then
    .error (.pathFormat
      "json_file_path must contain at least four components: <Program>/<Module##>/<Day##>/<persona>.json")
  else
    let program_name := paths_list.getD (paths_list.length - 4) ""
    let module_folder := paths_list.getD (paths_list.length - 3) ""
    let day_folder := paths_list.getD (paths_list.length - 2) ""
    let file_name := paths_list.getD (paths_list.length - 1) ""
    let program_seq := pySeqKey program_name
    if ¬ (pyStartsWith module_folder "Module" ∧ pyIsDigits (pyDrop module_folder 6)) then
      .error (.pathFormat
        ("Expected folder name in the form 'Module##' but got '" ++ module_folder ++ "'."))
    else if ¬ (pyStartsWith day_folder "Day" ∧ pyIsDigits (pyDrop day_folder 3)) then
      .error (.pathFormat
        ("Expected folder name in the form 'Day##' but got '" ++ day_folder ++ "'."))
    else if ¬ pyEndsWith file_name ".json" then
      .error (.pathFormat "persona file must have a .json extension (e.g., therapist01.json)")
    else
      let persona_name := pyDropRight file_name 5
      .ok { program_name := program_name
            program_seq := program_seq
            module_seq := pyToNat (pyDrop module_folder 6)
            day_seq := pyToNat (pyDrop day_folder 3)
            persona_name := persona_name
            persona_seq := pySeqKey persona_name }

/-- Leading and trailing whitespace stripped, as Python's `int(str)` and
pydantic's lax string-to-int coercion do before parsing. -/
def pyStrip (cs : List Char) : List Char :=
  ((cs.dropWhile Char.isWhitespace).reverse.dropWhile Char.isWhitespace).reverse

/-- A string accepted by the integer coercion that pydantic applies to a
`seq: Optional[int]` field (pydantic v1 via Python `int(str)`, v2 via lax
string-to-int): after stripping surrounding whitespace, an optional sign
followed by one or more digit characters and nothing else.  Digits are
modelled as ASCII digits, and Python's underscore digit grouping is left
out, as declared representation boundaries of the embedding. -/
def intParseable (s : String) : Bool :=
  let cs := pyStrip s.toList
  let ds := match cs with
    | '+' :: rest => rest
    | '-' :: rest => rest
    | rest => rest
  !ds.isEmpty && ds.all Char.isDigit

/-- Pydantic validation of one turn record by the `validJSON` model:
`role : str` and `text : str` required, `seq : Optional[int] = None`
accepted when absent, null, an integer, or an integer-parseable string
(the coercion both pydantic major versions apply); every other field is
ignored (`extra = "ignore"`).  A boolean `seq` is modelled as rejected
(pydantic v2 semantics; v1 would coerce it — no claim depends on it). -/
def validJSON_ok (item : JRecord) : Bool :=
  (match item.lookup "role" with
    | some (.str _) => true
    | _ => false) &&
  (match item.lookup "text" with
    | some (.str _) => true
    | _ => false) &&
  (match item.lookup "seq" with
    | none => true
    | some (.int _) => true
    | some .null => true
    | some (.str s) => intParseable s
    | some (.bool _) => false)

/-- The validation loop of `import_file` (source lines 177–181): every
record must satisfy `validJSON`. -/
def validateScript (script : List JRecord) : Bool :=
  script.all validJSON_ok

/-- The raw `dict` access `item["role"]` / `item["text"]` used when the
turn node is persisted (source lines 249–250).  After validation the
lookup always yields a JSON string; the default is never reached on the
paths the pipeline executes. -/
def fieldStr (item : JRecord) (key : String) : String :=
  match item.lookup key with
  | some (.str s) => s
  | _ => ""

/-- A `Turn` node as persisted in Neo4j.  The root turn carries only
`id`, `role` and `ts`; script turns also carry `text`, `accepted` and
`parent_id` (absent properties are `none`). -/
structure TurnNode where
  id : String
  role : String
  text : Option String
  accepted : Option Bool
  parent_id : Option String
  ts : Nat
deriving DecidableEq, Repr

/-- The graph-store state.  Node lists are kept in creation order.
Catalog nodes are identified by their MERGE keys: a Program by its string
id (its `seq` is SET separately), while Module/Day/Persona are merged on
the `{id, seq}` pair.  Edge endpoints use the endpoint node's key; turn
endpoints use the turn's `id`. -/
structure Graph where
  programs : List (String × Nat)
  modules : List (Nat × Nat)
  days : List (Nat × Nat)
  personas : List (String × Nat)
  turns : List TurnNode
  hasModule : List (String × (Nat × Nat))
  hasDay : List ((Nat × Nat) × (Nat × Nat))
  hasPersona : List ((Nat × Nat) × (String × Nat))
  roots : List ((String × Nat) × String)
  childOf : List (String × String)
deriving DecidableEq, Repr

/-- The graph with no nodes and no relationships. -/
def Graph.empty : Graph :=
  { programs := [], modules := [], days := [], personas := [], turns := []
    hasModule := [], hasDay := [], hasPersona := [], roots := [], childOf := [] }

/-- One `session.run` Cypher statement of `import_file`, with its bound
parameters (source lines 189–257). -/
inductive Stmt where
  /-- `MERGE (p:Program {id}) SET p.seq = seq` -/
  | mergeProgram (pid : String) (pseq : Nat)
  /-- `MERGE (m:Module {id, seq})` -/
  | mergeModule (mid mseq : Nat)
  /-- `MATCH (m:Module {id: mid}), (p:Program {id: pid}) MERGE (p)-[:HAS_MODULE]->(m)` -/
  | linkModule (mid : Nat) (pid : String)
  /-- `MERGE (d:Day {id, seq})` -/
  | mergeDay (did dseq : Nat)
  /-- `MATCH (d:Day {id, seq}), (m:Module {id: mid}) MERGE (m)-[:HAS_DAY]->(d)` -/
  | linkDay (did dseq mid : Nat)
  /-- `MERGE (per:Persona {id, seq})` -/
  | mergePersona (pid : String) (pseq : Nat)
  /-- `MATCH (per:Persona {id, seq}), (d:Day {id, seq}) MERGE (d)-[:HAS_PERSONA]->(per)` -/
  | linkPersona (did dseq : Nat) (pid : String) (pseq : Nat)
  /-- `MERGE (root_node:Turn {id, role: 'root', ts: timestamp()})` -/
  | mergeRoot (u : String) (ts : Nat)
  /-- `MATCH (t:Turn {id, role: 'root'}), (per:Persona {id, seq}) MERGE (per)-[:ROOTS]->(t)` -/
  | linkRoot (u : String) (pid : String) (pseq : Nat)
  /-- `MERGE (turn_node:Turn {id, role, text, accepted: true, parent_id, ts: timestamp()})` -/
  | mergeTurn (tid role text parentId : String) (ts : Nat)
  /-- `MATCH (parent:Turn {id: parentId}), (child:Turn {id: tid}) MERGE (parent)<-[:CHILD_OF]-(child)` -/
  | linkChildOf (parentId tid : String)
deriving DecidableEq, Repr

/-- The root `Turn` node created by the `mergeRoot` statement. -/
def rootNode (u : String) (ts : Nat) : TurnNode :=
  { id := u, role := "root", text := none, accepted := none, parent_id := none, ts := ts }

/-- A script `Turn` node created by the `mergeTurn` statement. -/
def scriptNode (tid role text parentId : String) (ts : Nat) : TurnNode :=
  { id := tid, role := role, text := some text, accepted := some true
    parent_id := some parentId, ts := ts }

/-- Cypher semantics of one statement on the graph state.  `MERGE` on a
node pattern matches nodes whose listed properties equal the pattern's
values and creates the node exactly when no match exists; `MATCH ... MERGE`
on a relationship is a no-op when a `MATCH` side is empty, and otherwise
upserts the relationship for every matched pair of endpoints. -/
def applyStmt (g : Graph) : Stmt → Graph
  | .mergeProgram pid pseq =>
      if ∃ p ∈ g.programs, p.1 = pid then
        { g with programs := g.programs.map (fun p => if p.1 = pid then (p.1, pseq) else p) }
      else
        { g with programs := g.programs ++ [(pid, pseq)] }
  | .mergeModule mid mseq =>
      if (mid, mseq) ∈ g.modules then g
      else { g with modules := g.modules ++ [(mid, mseq)] }
  | .linkModule mid pid =>
      if ∃ p ∈ g.programs, p.1 = pid then
        { g with hasModule :=
            (g.modules.filter (fun m => m.1 = mid)).foldl
                  (fun es m => if (pid, m) ∈ es then es else es ++ [(pid, m)]) g.hasModule }
      else g
  | .mergeDay did dseq =>
      if (did, dseq) ∈ g.days then g
      else { g with days := g.days ++ [(did, dseq)] }
  | .linkDay did dseq mid =>
      if (did, dseq) ∈ g.days then
        { g with hasDay :=
            (g.modules.filter (fun m => m.1 = mid)).foldl
                  (fun es m => if (m, (did, dseq)) ∈ es then es else es ++ [(m, (did, dseq))]) g.hasDay }
      else g
  | .mergePersona pid pseq =>
      if (pid, pseq) ∈ g.personas then g
      else { g with personas := g.personas ++ [(pid, pseq)] }
  | .linkPersona did dseq pid pseq =>
      if (pid, pseq) ∈ g.personas ∧ (did, dseq) ∈ g.days then
        { g with hasPersona :=
            if ((did, dseq), (pid, pseq)) ∈ g.hasPersona then g.hasPersona
            else g.hasPersona ++ [((did, dseq), (pid, pseq))] }
      else g
  | .mergeRoot u ts =>
      if ∃ t ∈ g.turns, t.id = u ∧ t.role = "root" ∧ t.ts = ts then g
      else { g with turns := g.turns ++ [rootNode u ts] }
  | .linkRoot u pid pseq =>
      if (pid, pseq) ∈ g.personas then
        { g with roots :=
            (g.turns.filter (fun t => t.id = u ∧ t.role = "root")).foldl
                  (fun es t => if ((pid, pseq), t.id) ∈ es then es else es ++ [((pid, pseq), t.id)]) g.roots }
      else g
  | .mergeTurn tid role text parentId ts =>
      if scriptNode tid role text parentId ts ∈ g.turns then g
      else { g with turns := g.turns ++ [scriptNode tid role text parentId ts] }
  | .linkChildOf parentId tid =>
      if (∃ t ∈ g.turns, t.id = parentId) ∧ (∃ t ∈ g.turns, t.id = tid) then
        { g with childOf :=
            if (tid, parentId) ∈ g.childOf then g.childOf
            else g.childOf ++ [(tid, parentId)] }
      else g

/-- Execute a statement sequence left to right. -/
def runAll (g : Graph) (ss : List Stmt) : Graph :=
  ss.foldl applyStmt g

/-- The nine catalog statements of one invocation (source lines 189–231):
Program, Module + HAS_MODULE, Day + HAS_DAY, Persona + HAS_PERSONA, the
fresh root turn `u`, and its ROOTS edge. -/
def catalogStmts (c : Coords) (u : String) (now : Nat) : List Stmt :=
  [ .mergeProgram c.program_name c.program_seq,
    .mergeModule c.module_seq c.module_seq,
    .linkModule c.module_seq c.program_name,
    .mergeDay c.day_seq c.day_seq,
    .linkDay c.day_seq c.day_seq c.module_seq,
    .mergePersona c.persona_name c.persona_seq,
    .linkPersona c.day_seq c.day_seq c.persona_name c.persona_seq,
    .mergeRoot u now,
    .linkRoot u c.persona_name c.persona_seq ]

/-- The per-turn statements of the insertion loop (source lines 235–259):
for each record, a fresh id `gen k`, the turn node MERGE, its CHILD_OF
edge to the current parent, and the parent cursor advanced to the new id. -/
def turnStmts (gen : Nat → String) (now : Nat) : Nat → String → List JRecord → List Stmt
  | _, _, [] => []
  | k, parent, item :: rest =>
      .mergeTurn (gen k) (fieldStr item "role") (fieldStr item "text") parent now ::
      .linkChildOf parent (gen k) ::
      turnStmts gen now (k + 1) (gen k) rest

/-- An observable I/O effect of the invocation, in occurrence order.
`verifyConnectivity` and `openSession` are the connection I/O performed by
`start_neo4j_session`; `readFile` is the `read_text` of the script file;
`run s` is one `session.run`; the close events are the `finally` cleanup. -/
inductive Event where
  | verifyConnectivity
  | openSession
  | readFile
  | run (s : Stmt)
  | closeSession
  | closeDriver
deriving DecidableEq, Repr

/-- The outcome of one invocation: its ordered effect trace, its returned
value or raised error, the UUID counter after the run, and the resulting
graph state. -/
structure Outcome where
  events : List Event
  result : Except ImpError String
  ctr : Nat
  graph : Graph
deriving Repr

/-- Shallow embedding of `import_file` (source lines 83–264).

Control flow of the source, in order: open and verify the connection
(`start_neo4j_session`, line 129); parse/validate the path segments
(lines 130–175, raising `ValueError` with the session still open on
failure); read the script file (line 176); validate every record
(lines 177–181, again raising with the session open on failure); draw
`uuid1` (the job id, line 182) and `uuid2` (the root id, line 185); run
the catalog and turn statements inside `try`; close session and driver
in `finally`; return `str(uuid1)`. -/
def import_file (gen : Nat → String) (ctr now : Nat) (paths_list : List String)
    (script : List JRecord) (g : Graph) : Outcome :=
  match parsePath paths_list with
  | .error e =>
      { events := [.verifyConnectivity, .openSession], result := .error e, ctr := ctr, graph := g }
  | .ok c =>
      if validateScript script then
        let uuid1 := gen ctr
        let uuid2 := gen (ctr + 1)
        let stmts := catalogStmts c uuid2 now ++ turnStmts gen now (ctr + 2) uuid2 script
        { events := [.verifyConnectivity, .openSession, .readFile] ++ stmts.map .run ++
            [.closeSession, .closeDriver]
          result := .ok uuid1
          ctr := ctr + 2 + script.length
          graph := runAll g stmts }
      else
        { events := [.verifyConnectivity, .openSession, .readFile]
          result := .error (.turnSchema "One of the required keys is missing")
          ctr := ctr, graph := g }

/-! ### Derived shapes of a successful run -/

/-- The turn nodes created by the insertion loop for `script`, when the
fresh ids are `gen k, gen (k+1), ...` and the first parent is `parent`. -/
def chainTurns (gen : Nat → String) (now : Nat) : Nat → String → List JRecord → List TurnNode
  | _, _, [] => []
  | k, parent, item :: rest =>
      scriptNode (gen k) (fieldStr item "role") (fieldStr item "text") parent now ::
        chainTurns gen now (k + 1) (gen k) rest

/-- The CHILD_OF edges (child id, parent id) created by the insertion loop. -/
def chainEdges (gen : Nat → String) : Nat → String → List JRecord → List (String × String)
  | _, _, [] => []
  | k, parent, _ :: rest => (gen k, parent) :: chainEdges gen (k + 1) (gen k) rest

/-- The graph produced by the nine catalog statements on an empty store:
one node per catalog level, the three hierarchy edges, the root turn `u`
and its ROOTS edge. -/
def catGraph (c : Coords) (u : String) (now : Nat) : Graph :=
  { programs := [(c.program_name, c.program_seq)]
    modules := [(c.module_seq, c.module_seq)]
    days := [(c.day_seq, c.day_seq)]
    personas := [(c.persona_name, c.persona_seq)]
    turns := [rootNode u now]
    hasModule := [(c.program_name, (c.module_seq, c.module_seq))]
    hasDay := [((c.module_seq, c.module_seq), (c.day_seq, c.day_seq))]
    hasPersona := [((c.day_seq, c.day_seq), (c.persona_name, c.persona_seq))]
    roots := [((c.persona_name, c.persona_seq), u)]
    childOf := [] }

theorem runAll_catalog_empty (c : Coords) (u : String) (now : Nat) :
    runAll Graph.empty (catalogStmts c u now) = catGraph c u now := by
  simp [runAll, catalogStmts, applyStmt, Graph.empty, catGraph, rootNode,
    List.foldl_cons, List.foldl_nil, List.filter]

theorem runAll_nil (g : Graph) : runAll g [] = g := rfl

theorem runAll_cons (g : Graph) (s : Stmt) (ss : List Stmt) :
    runAll g (s :: ss) = runAll (applyStmt g s) ss := rfl

theorem runAll_append (g : Graph) (l1 l2 : List Stmt) :
    runAll g (l1 ++ l2) = runAll (runAll g l1) l2 :=
  List.foldl_append ..

theorem chainTurns_length (gen : Nat → String) (now : Nat) :
    ∀ (script : List JRecord) (k : Nat) (parent : String),
      (chainTurns gen now k parent script).length = script.length := by
  intro script
  induction script with
  | nil => intro k parent; rfl
  | cons item rest ih => intro k parent; simp [chainTurns, ih]

theorem chainEdges_length (gen : Nat → String) :
    ∀ (script : List JRecord) (k : Nat) (parent : String),
      (chainEdges gen k parent script).length = script.length := by
  intro script
  induction script with
  | nil => intro k parent; rfl
  | cons item rest ih => intro k parent; simp [chainEdges, ih]

/-- Every turn created by the insertion loop has one of the fresh ids. -/
theorem chainTurns_id (gen : Nat → String) (now : Nat) :
    ∀ (script : List JRecord) (k : Nat) (parent : String) (t : TurnNode),
      t ∈ chainTurns gen now k parent script →
      ∃ i, i < script.length ∧ t.id = gen (k + i) := by
  intro script
  induction script with
  | nil => intro k parent t ht; simp [chainTurns] at ht
  | cons item rest ih =>
      intro k parent t ht
      rcases List.mem_cons.mp ht with h | h
      · exact ⟨0, by simp, by simp [h, scriptNode]⟩
      · obtain ⟨i, hi, hid⟩ := ih (k + 1) (gen k) t h
        exact ⟨i + 1, by simp only [List.length_cons]; omega, by rw [hid]; congr 1; omega⟩

/-- Every turn created by the insertion loop carries a `text` property. -/
theorem chainTurns_text (gen : Nat → String) (now : Nat) :
    ∀ (script : List JRecord) (k : Nat) (parent : String) (t : TurnNode),
      t ∈ chainTurns gen now k parent script → ∃ s, t.text = some s := by
  intro script
  induction script with
  | nil => intro k parent t ht; simp [chainTurns] at ht
  | cons item rest ih =>
      intro k parent t ht
      rcases List.mem_cons.mp ht with h | h
      · exact ⟨fieldStr item "text", by simp [h, scriptNode]⟩
      · exact ih (k + 1) (gen k) t h

/-- Every CHILD_OF edge created by the insertion loop starts at a fresh id. -/
theorem chainEdges_fst (gen : Nat → String) :
    ∀ (script : List JRecord) (k : Nat) (parent : String) (e : String × String),
      e ∈ chainEdges gen k parent script →
      ∃ i, i < script.length ∧ e.1 = gen (k + i) := by
  intro script
  induction script with
  | nil => intro k parent e he; simp [chainEdges] at he
  | cons item rest ih =>
      intro k parent e he
      rcases List.mem_cons.mp he with h | h
      · exact ⟨0, by simp, by simp [h]⟩
      · obtain ⟨i, hi, hid⟩ := ih (k + 1) (gen k) e h
        exact ⟨i + 1, by simp only [List.length_cons]; omega, by rw [hid]; congr 1; omega⟩

/-- Effect of the whole turn-insertion loop: when the parent anchor exists
and all the drawn ids are fresh (for the existing turns, the existing
CHILD_OF edges, and pairwise), the loop appends exactly the chain turns
and the chain edges, and touches nothing else. -/
theorem runAll_turnStmts (gen : Nat → String) (now : Nat) :
    ∀ (script : List JRecord) (k : Nat) (parent : String) (g : Graph),
      (∃ t ∈ g.turns, t.id = parent) →
      (∀ i, i < script.length → ∀ t ∈ g.turns, t.id ≠ gen (k + i)) →
      (∀ i, i < script.length → ∀ e ∈ g.childOf, e.1 ≠ gen (k + i)) →
      (∀ i j, k ≤ i → k ≤ j → i ≠ j → gen i ≠ gen j) →
      runAll g (turnStmts gen now k parent script) =
        { g with turns := g.turns ++ chainTurns gen now k parent script
                 childOf := g.childOf ++ chainEdges gen k parent script } := by
  intro script
  induction script with
  | nil =>
      intro k parent g _ _ _ _
      simp [turnStmts, chainTurns, chainEdges, runAll_nil]
  | cons item rest ih =>
      intro k parent g hpar hfresh hchild hinj
      have hnode : scriptNode (gen k) (fieldStr item "role") (fieldStr item "text") parent now ∉
          g.turns := by
        intro hmem
        exact hfresh 0 (by simp) _ hmem (by simp [scriptNode])
      have e1 : applyStmt g
          (.mergeTurn (gen k) (fieldStr item "role") (fieldStr item "text") parent now) =
          { g with turns :=
              g.turns ++ [scriptNode (gen k) (fieldStr item "role") (fieldStr item "text") parent now] } := by
        simp [applyStmt, hnode]
      have hedge : (gen k, parent) ∉ g.childOf := by
        intro hmem
        exact hchild 0 (by simp) _ hmem (by simp)
      have e2 : applyStmt
          { g with turns :=
              g.turns ++ [scriptNode (gen k) (fieldStr item "role") (fieldStr item "text") parent now] }
          (.linkChildOf parent (gen k)) =
          { g with
            turns := g.turns ++ [scriptNode (gen k) (fieldStr item "role") (fieldStr item "text") parent now]
            childOf := g.childOf ++ [(gen k, parent)] } := by
        obtain ⟨t0, ht0, ht0id⟩ := hpar
        have hp : ∃ t ∈ g.turns ++
            [scriptNode (gen k) (fieldStr item "role") (fieldStr item "text") parent now],
            t.id = parent := ⟨t0, List.mem_append_left _ ht0, ht0id⟩
        have hc : ∃ t ∈ g.turns ++
            [scriptNode (gen k) (fieldStr item "role") (fieldStr item "text") parent now],
            t.id = gen k := by
          refine ⟨_, List.mem_append_right _ (List.mem_singleton_self _), ?_⟩
          simp [scriptNode]
        simp [applyStmt, hp, hc, hedge]
        exact ⟨t0, Or.inl ht0, ht0id, _, Or.inr rfl, rfl⟩
      simp only [turnStmts]
      rw [runAll_cons, runAll_cons, e1, e2]
      rw [ih (k + 1) (gen k)]
      · simp [chainTurns, chainEdges, List.append_assoc]
      · exact ⟨_, List.mem_append_right _ (List.mem_singleton_self _), by simp [scriptNode]⟩
      · intro i hi t ht
        rcases List.mem_append.mp ht with h | h
        · have := hfresh (i + 1) (by simpa using Nat.succ_lt_succ hi) t h
          intro hcon; apply this; rw [hcon]; congr 1; omega
        · rcases List.mem_singleton.mp h with rfl
          have : gen k ≠ gen (k + 1 + i) := hinj k (k + 1 + i) le_rfl (by omega) (by omega)
          simpa [scriptNode] using this
      · intro i hi e he
        rcases List.mem_append.mp he with h | h
        · have := hchild (i + 1) (by simpa using Nat.succ_lt_succ hi) e h
          intro hcon; apply this; rw [hcon]; congr 1; omega
        · rcases List.mem_singleton.mp h with rfl
          have : gen k ≠ gen (k + 1 + i) := hinj k (k + 1 + i) le_rfl (by omega) (by omega)
          simpa using this
      · intro i j hik hjk hij
        exact hinj i j (by omega) (by omega) hij

/-- Unfolding of a fully successful invocation. -/
theorem import_file_ok (gen : Nat → String) (ctr now : Nat) (paths : List String)
    (script : List JRecord) (g : Graph) (c : Coords)
    (hp : parsePath paths = .ok c) (hv : validateScript script = true) :
    import_file gen ctr now paths script g =
      { events := [.verifyConnectivity, .openSession, .readFile] ++
          ((catalogStmts c (gen (ctr + 1)) now ++
            turnStmts gen now (ctr + 2) (gen (ctr + 1)) script).map .run) ++
          [.closeSession, .closeDriver]
        result := .ok (gen ctr)
        ctr := ctr + 2 + script.length
        graph := runAll g (catalogStmts c (gen (ctr + 1)) now ++
          turnStmts gen now (ctr + 2) (gen (ctr + 1)) script) } := by
  simp [import_file, hp, hv]

/-- Unfolding of an invocation that fails path validation. -/
theorem import_file_pathError (gen : Nat → String) (ctr now : Nat) (paths : List String)
    (script : List JRecord) (g : Graph) (e : ImpError)
    (hp : parsePath paths = .error e) :
    import_file gen ctr now paths script g =
      { events := [.verifyConnectivity, .openSession], result := .error e, ctr := ctr, graph := g } := by
  simp [import_file, hp]

/-- Unfolding of an invocation that fails turn-schema validation. -/
theorem import_file_schemaError (gen : Nat → String) (ctr now : Nat) (paths : List String)
    (script : List JRecord) (g : Graph) (c : Coords)
    (hp : parsePath paths = .ok c) (hv : validateScript script = false) :
    import_file gen ctr now paths script g =
      { events := [.verifyConnectivity, .openSession, .readFile]
        result := .error (.turnSchema "One of the required keys is missing")
        ctr := ctr, graph := g } := by
  simp [import_file, hp, hv]

/-- The graph built by one successful import into an empty store. -/
def importedGraph (gen : Nat → String) (ctr now : Nat) (c : Coords) (script : List JRecord) :
    Graph :=
  { catGraph c (gen (ctr + 1)) now with
    turns := rootNode (gen (ctr + 1)) now :: chainTurns gen now (ctr + 2) (gen (ctr + 1)) script
    childOf := chainEdges gen (ctr + 2) (gen (ctr + 1)) script }

/-- Full characterization of one successful import into an empty store. -/
theorem import_file_empty_graph (gen : Nat → String) (ctr now : Nat) (paths : List String)
    (script : List JRecord) (c : Coords)
    (hp : parsePath paths = .ok c) (hv : validateScript script = true)
    (hinj : ∀ i j, ctr ≤ i → ctr ≤ j → i ≠ j → gen i ≠ gen j) :
    (import_file gen ctr now paths script Graph.empty).graph =
      importedGraph gen ctr now c script := by
  have hg : (import_file gen ctr now paths script Graph.empty).graph =
      runAll Graph.empty (catalogStmts c (gen (ctr + 1)) now ++
        turnStmts gen now (ctr + 2) (gen (ctr + 1)) script) := by
    rw [import_file_ok gen ctr now paths script Graph.empty c hp hv]
  rw [hg, runAll_append, runAll_catalog_empty]
  rw [runAll_turnStmts gen now script (ctr + 2) (gen (ctr + 1)) (catGraph c (gen (ctr + 1)) now)]
  · simp [catGraph, importedGraph]
  · exact ⟨rootNode (gen (ctr + 1)) now, by simp [catGraph], rfl⟩
  · intro i hi t ht
    rcases List.mem_singleton.mp ht with rfl
    have : gen (ctr + 1) ≠ gen (ctr + 2 + i) := hinj (ctr + 1) (ctr + 2 + i) (by omega) (by omega) (by omega)
    simpa [rootNode] using this
  · intro i hi e he
    simp [catGraph] at he
  · intro i j hik hjk hij
    exact hinj i j (by omega) (by omega) hij

/-- Effect of the nine catalog statements on a store that already holds
exactly this catalog: every catalog MERGE matches and changes nothing,
while the root-turn MERGE (whose id `u` is fresh) and its ROOTS edge are
appended — the non-idempotent part of the pipeline. -/
theorem runAll_catalog_existing (c : Coords) (u : String) (now' : Nat) (g : Graph)
    (h1 : g.programs = [(c.program_name, c.program_seq)])
    (h2 : g.modules = [(c.module_seq, c.module_seq)])
    (h3 : g.days = [(c.day_seq, c.day_seq)])
    (h4 : g.personas = [(c.persona_name, c.persona_seq)])
    (h5 : g.hasModule = [(c.program_name, (c.module_seq, c.module_seq))])
    (h6 : g.hasDay = [((c.module_seq, c.module_seq), (c.day_seq, c.day_seq))])
    (h7 : g.hasPersona = [((c.day_seq, c.day_seq), (c.persona_name, c.persona_seq))])
    (hturn : ∀ t ∈ g.turns, t.id ≠ u)
    (hroot : ∀ e ∈ g.roots, e.2 ≠ u) :
    runAll g (catalogStmts c u now') =
      { g with turns := g.turns ++ [rootNode u now']
               roots := g.roots ++ [((c.persona_name, c.persona_seq), u)] } := by
  obtain ⟨pl, ml, dl, prl, tl, eml, edl, epl, rl, col⟩ := g
  simp only at h1 h2 h3 h4 h5 h6 h7 hturn hroot
  subst h1 h2 h3 h4 h5 h6 h7
  have hnoRoot : ¬ ∃ t ∈ tl, t.id = u ∧ t.role = "root" ∧ t.ts = now' := by
    rintro ⟨t, ht, hid, -⟩
    exact hturn t ht hid
  have hfilter : tl.filter (fun t => decide (t.id = u) && decide (t.role = "root")) = [] := by
    rw [List.filter_eq_nil_iff]
    intro t ht
    simp only [Bool.and_eq_true, decide_eq_true_eq, not_and]
    intro hid
    exact absurd hid (hturn t ht)
  have hredge : ((c.persona_name, c.persona_seq), u) ∉ rl := fun hmem => hroot _ hmem rfl
  simp [runAll, catalogStmts, applyStmt, hnoRoot, hfilter, hredge, rootNode]

/-- Full characterization of two successive imports of the same path into
an initially empty store: the catalog is shared, while each run appends
its own root turn, ROOTS edge and chain. -/
theorem import_file_twice_graph (gen : Nat → String) (ctr now now' : Nat) (paths : List String)
    (s1 s2 : List JRecord) (c : Coords)
    (hp : parsePath paths = .ok c) (hv1 : validateScript s1 = true)
    (hv2 : validateScript s2 = true)
    (hinj : ∀ i j, ctr ≤ i → ctr ≤ j → i ≠ j → gen i ≠ gen j) :
    (import_file gen (import_file gen ctr now paths s1 Graph.empty).ctr now' paths s2
        (import_file gen ctr now paths s1 Graph.empty).graph).graph =
      { catGraph c (gen (ctr + 1)) now with
        turns := (rootNode (gen (ctr + 1)) now ::
            chainTurns gen now (ctr + 2) (gen (ctr + 1)) s1) ++
          rootNode (gen (ctr + 2 + s1.length + 1)) now' ::
            chainTurns gen now' (ctr + 2 + s1.length + 2) (gen (ctr + 2 + s1.length + 1)) s2
        roots := [((c.persona_name, c.persona_seq), gen (ctr + 1)),
                  ((c.persona_name, c.persona_seq), gen (ctr + 2 + s1.length + 1))]
        childOf := chainEdges gen (ctr + 2) (gen (ctr + 1)) s1 ++
          chainEdges gen (ctr + 2 + s1.length + 2) (gen (ctr + 2 + s1.length + 1)) s2 } := by
  have hG1 := import_file_empty_graph gen ctr now paths s1 c hp hv1 hinj
  have hc1 : (import_file gen ctr now paths s1 Graph.empty).ctr = ctr + 2 + s1.length := by
    rw [import_file_ok gen ctr now paths s1 Graph.empty c hp hv1]
  rw [hc1, hG1]
  have hg2 : (import_file gen (ctr + 2 + s1.length) now' paths s2
        (importedGraph gen ctr now c s1)).graph =
      runAll (importedGraph gen ctr now c s1)
        (catalogStmts c (gen (ctr + 2 + s1.length + 1)) now' ++
          turnStmts gen now' (ctr + 2 + s1.length + 2) (gen (ctr + 2 + s1.length + 1)) s2) := by
    rw [import_file_ok gen (ctr + 2 + s1.length) now' paths s2
      (importedGraph gen ctr now c s1) c hp hv2]
  rw [hg2, runAll_append]
  have hturn1 : ∀ t ∈ (importedGraph gen ctr now c s1).turns,
      t.id ≠ gen (ctr + 2 + s1.length + 1) := by
    intro t ht
    rcases List.mem_cons.mp ht with rfl | hmem
    · simpa [rootNode] using
        hinj (ctr + 1) (ctr + 2 + s1.length + 1) (by omega) (by omega) (by omega)
    · obtain ⟨i, hi, hid⟩ := chainTurns_id gen now s1 (ctr + 2) (gen (ctr + 1)) t hmem
      rw [hid]
      exact hinj (ctr + 2 + i) (ctr + 2 + s1.length + 1) (by omega) (by omega) (by omega)
  rw [runAll_catalog_existing c (gen (ctr + 2 + s1.length + 1)) now'
    (importedGraph gen ctr now c s1) rfl rfl rfl rfl rfl rfl rfl hturn1
    (by
      intro e he
      rcases List.mem_singleton.mp he with rfl
      simpa using hinj (ctr + 1) (ctr + 2 + s1.length + 1) (by omega) (by omega) (by omega))]
  rw [runAll_turnStmts gen now' s2 (ctr + 2 + s1.length + 2) (gen (ctr + 2 + s1.length + 1))]
  · simp [importedGraph, catGraph]
  · refine ⟨rootNode (gen (ctr + 2 + s1.length + 1)) now', ?_, rfl⟩
    exact List.mem_append_right _ (List.mem_singleton_self _)
  · intro i hi t ht
    rcases List.mem_append.mp ht with hmem | hmem
    · rcases List.mem_cons.mp hmem with rfl | hmem2
      · simpa [rootNode] using
          hinj (ctr + 1) (ctr + 2 + s1.length + 2 + i) (by omega) (by omega) (by omega)
      · obtain ⟨j, hj, hid⟩ := chainTurns_id gen now s1 (ctr + 2) (gen (ctr + 1)) t hmem2
        rw [hid]
        exact hinj (ctr + 2 + j) (ctr + 2 + s1.length + 2 + i) (by omega) (by omega) (by omega)
    · rcases List.mem_singleton.mp hmem with rfl
      simpa [rootNode] using
        hinj (ctr + 2 + s1.length + 1) (ctr + 2 + s1.length + 2 + i) (by omega) (by omega)
          (by omega)
  · intro i hi e he
    have he2 : e ∈ chainEdges gen (ctr + 2) (gen (ctr + 1)) s1 := by
      simpa [importedGraph] using he
    obtain ⟨j, hj, hfst⟩ := chainEdges_fst gen s1 (ctr + 2) (gen (ctr + 1)) e he2
    rw [hfst]
    exact hinj (ctr + 2 + j) (ctr + 2 + s1.length + 2 + i) (by omega) (by omega) (by omega)
  · intro i j hik hjk hij
    exact hinj i j (by omega) (by omega) hij

/-! ### Path parsing facts (claim C6 and the path-error claims) -/

/-- The four trailing segments selected by `paths_list[-4..-1]`. -/
theorem getD_last4 (pre : List String) (a b c d : String) :
    (pre ++ [a, b, c, d]).getD ((pre ++ [a, b, c, d]).length - 4) "" = a ∧
    (pre ++ [a, b, c, d]).getD ((pre ++ [a, b, c, d]).length - 3) "" = b ∧
    (pre ++ [a, b, c, d]).getD ((pre ++ [a, b, c, d]).length - 2) "" = c ∧
    (pre ++ [a, b, c, d]).getD ((pre ++ [a, b, c, d]).length - 1) "" = d := by
  have hl : (pre ++ [a, b, c, d]).length = pre.length + 4 := by simp
  refine ⟨?_, ?_, ?_, ?_⟩
  · rw [hl, show pre.length + 4 - 4 = pre.length + 0 from by omega,
      List.getD_append_right _ _ _ _ (by omega)]
    simp [List.getD]
  · rw [hl, show pre.length + 4 - 3 = pre.length + 1 from by omega,
      List.getD_append_right _ _ _ _ (by omega)]
    simp [List.getD]
  · rw [hl, show pre.length + 4 - 2 = pre.length + 2 from by omega,
      List.getD_append_right _ _ _ _ (by omega)]
    simp [List.getD]
  · rw [hl, show pre.length + 4 - 1 = pre.length + 3 from by omega,
      List.getD_append_right _ _ _ _ (by omega)]
    simp [List.getD]

/-- The spec's well-formedness of a Module segment: the literal `Module`
followed by one or more digit characters and nothing else. -/
def moduleWellFormed (s : String) : Prop :=
  ∃ ms : List Char, ms ≠ [] ∧ (∀ ch ∈ ms, ch.isDigit) ∧ s.toList = "Module".toList ++ ms

/-- The spec's well-formedness of a Day segment. -/
def dayWellFormed (s : String) : Prop :=
  ∃ ds : List Char, ds ≠ [] ∧ (∀ ch ∈ ds, ch.isDigit) ∧ s.toList = "Day".toList ++ ds

/-- The code's Module-segment test is exactly the spec's well-formedness. -/
theorem module_check_iff (s : String) :
    (pyStartsWith s "Module" ∧ pyIsDigits (pyDrop s 6)) ↔ moduleWellFormed s := by
  constructor
  · rintro ⟨hsw, hnil, hdig⟩
    have hsw' : s.toList.take 6 = "Module".toList := hsw
    refine ⟨s.toList.drop 6, hnil, hdig, ?_⟩
    conv_lhs => rw [← List.take_append_drop 6 s.toList]
    rw [hsw']
  · rintro ⟨ms, hnil, hdig, hs⟩
    constructor
    · show s.toList.take "Module".toList.length = "Module".toList
      rw [hs, List.take_left]
    · show pyIsDigits (s.toList.drop 6)
      rw [hs, show (6 : Nat) = "Module".toList.length from rfl, List.drop_left]
      exact ⟨hnil, hdig⟩

/-- The code's Day-segment test is exactly the spec's well-formedness. -/
theorem day_check_iff (s : String) :
    (pyStartsWith s "Day" ∧ pyIsDigits (pyDrop s 3)) ↔ dayWellFormed s := by
  constructor
  · rintro ⟨hsw, hnil, hdig⟩
    have hsw' : s.toList.take 3 = "Day".toList := hsw
    refine ⟨s.toList.drop 3, hnil, hdig, ?_⟩
    conv_lhs => rw [← List.take_append_drop 3 s.toList]
    rw [hsw']
  · rintro ⟨ds, hnil, hdig, hs⟩
    constructor
    · show s.toList.take "Day".toList.length = "Day".toList
      rw [hs, List.take_left]
    · show pyIsDigits (s.toList.drop 3)
      rw [hs, show (3 : Nat) = "Day".toList.length from rfl, List.drop_left]
      exact ⟨hnil, hdig⟩

theorem parsePath_ok_of (pre : List String) (prog mseg dseg fname : String) (ms ds : List Char)
    (hm : mseg.toList = "Module".toList ++ ms) (hmn : ms ≠ []) (hmd : ∀ ch ∈ ms, ch.isDigit)
    (hd : dseg.toList = "Day".toList ++ ds) (hdn : ds ≠ []) (hdd : ∀ ch ∈ ds, ch.isDigit)
    (hf : pyEndsWith fname ".json") :
    parsePath (pre ++ [prog, mseg, dseg, fname]) =
      .ok { program_name := prog, program_seq := pySeqKey prog,
            module_seq := pyToNat ms, day_seq := pyToNat ds,
            persona_name := pyDropRight fname 5,
            persona_seq := pySeqKey (pyDropRight fname 5) } := by
  obtain ⟨e1, e2, e3, e4⟩ := getD_last4 pre prog mseg dseg fname
  have hlen : ¬ ((pre ++ [prog, mseg, dseg, fname]).length < 4) := by
    simp only [List.length_append, List.length_cons, List.length_nil]
    omega
  have hmod : pyStartsWith mseg "Module" ∧ pyIsDigits (pyDrop mseg 6) :=
    (module_check_iff mseg).mpr ⟨ms, hmn, hmd, hm⟩
  have hday : pyStartsWith dseg "Day" ∧ pyIsDigits (pyDrop dseg 3) :=
    (day_check_iff dseg).mpr ⟨ds, hdn, hdd, hd⟩
  have hms : pyDrop mseg 6 = ms := by
    show mseg.toList.drop 6 = ms
    rw [hm, show (6 : Nat) = "Module".toList.length from rfl, List.drop_left]
  have hds : pyDrop dseg 3 = ds := by
    show dseg.toList.drop 3 = ds
    rw [hd, show (3 : Nat) = "Day".toList.length from rfl, List.drop_left]
  simp only [parsePath, hlen, if_false, e1, e2, e3, e4, hmod.1, hmod.2, hday.1, hday.2, hf,
    not_true, and_self, hms, hds]
  simp [show pyIsDigits ms from ⟨hmn, hmd⟩, show pyIsDigits ds from ⟨hdn, hdd⟩]

theorem parsePath_error_of_module (paths : List String) (h4 : 4 ≤ paths.length)
    (hm : ¬ moduleWellFormed (paths.getD (paths.length - 3) "")) :
    ∃ m, parsePath paths = .error (.pathFormat m) := by
  have hlt : ¬ (paths.length < 4) := by omega
  simp only [parsePath, hlt, if_false]
  have hnm : ¬ (pyStartsWith (paths.getD (paths.length - 3) "") "Module" ∧
      pyIsDigits (pyDrop (paths.getD (paths.length - 3) "") 6)) :=
    fun hc => hm ((module_check_iff _).mp hc)
  rw [if_pos hnm]
  exact ⟨_, rfl⟩

theorem parsePath_error_of_day (paths : List String) (h4 : 4 ≤ paths.length)
    (hd : ¬ dayWellFormed (paths.getD (paths.length - 2) "")) :
    ∃ m, parsePath paths = .error (.pathFormat m) := by
  have hlt : ¬ (paths.length < 4) := by omega
  simp only [parsePath, hlt, if_false]
  by_cases hmod : pyStartsWith (paths.getD (paths.length - 3) "") "Module" ∧
      pyIsDigits (pyDrop (paths.getD (paths.length - 3) "") 6)
  · have hnd : ¬ (pyStartsWith (paths.getD (paths.length - 2) "") "Day" ∧
        pyIsDigits (pyDrop (paths.getD (paths.length - 2) "") 3)) :=
      fun hc => hd ((day_check_iff _).mp hc)
    rw [if_neg (not_not_intro hmod), if_pos hnd]
    exact ⟨_, rfl⟩
  · rw [if_pos hmod]
    exact ⟨_, rfl⟩

/-- Every parse failure is a `PathFormatError`. -/
theorem parsePath_error_kind (paths : List String) (e : ImpError)
    (h : parsePath paths = .error e) : ∃ m, e = .pathFormat m := by
  simp only [parsePath] at h
  split_ifs at h
  all_goals injection h with h'
  all_goals exact ⟨_, h'.symm⟩

/-- C6: on a path whose last four segments are well-formed, parsing
succeeds and returns the raw program segment, the module/day numeric ids
parsed from their segment digits, the filename minus its `.json` extension
as persona name, and digit-strip ordering keys for Program and Persona
(0 when the segment has no digits); a malformed Module or Day segment
(wrong literal before the digits, or a suffix that is not one or more
digit characters and nothing else) fails with a PathFormatError. -/
theorem claim_C6 :
    (∀ (pre : List String) (prog mseg dseg fname : String) (ms ds : List Char),
      mseg.toList = "Module".toList ++ ms → ms ≠ [] → (∀ ch ∈ ms, ch.isDigit) →
      dseg.toList = "Day".toList ++ ds → ds ≠ [] → (∀ ch ∈ ds, ch.isDigit) →
      pyEndsWith fname ".json" →
      parsePath (pre ++ [prog, mseg, dseg, fname]) =
        .ok { program_name := prog, program_seq := pySeqKey prog,
              module_seq := pyToNat ms, day_seq := pyToNat ds,
              persona_name := pyDropRight fname 5,
              persona_seq := pySeqKey (pyDropRight fname 5) }) ∧
    (∀ paths : List String, 4 ≤ paths.length →
      ¬ moduleWellFormed (paths.getD (paths.length - 3) "") →
      ∃ m, parsePath paths = .error (.pathFormat m)) ∧
    (∀ paths : List String, 4 ≤ paths.length →
      ¬ dayWellFormed (paths.getD (paths.length - 2) "") →
      ∃ m, parsePath paths = .error (.pathFormat m)) ∧
    (∀ s : String, pyDigits s = [] → pySeqKey s = 0) :=
  ⟨parsePath_ok_of, parsePath_error_of_module, parsePath_error_of_day,
    fun s h => by simp [pySeqKey, h, pyToNat]⟩

/-- Witness for C6 at concrete paths: the canonical good path, a Module
segment with a non-digit suffix, a Day segment with no digits, and a
digit-free program name. -/
theorem claim_C6_witness :
    parsePath ["data", "Therapy", "Module01", "Day01", "CoachAlex01.json"] =
      .ok { program_name := "Therapy", program_seq := 0, module_seq := 1, day_seq := 1,
            persona_name := "CoachAlex01", persona_seq := 1 } ∧
    (∃ m, parsePath ["T", "ModuleA1", "Day01", "p.json"] = .error (.pathFormat m)) ∧
    (∃ m, parsePath ["T", "Module01", "DayX", "p.json"] = .error (.pathFormat m)) ∧
    pySeqKey "Therapy" = 0 := by
  refine ⟨?_, ?_, ?_, claim_C6.2.2.2 "Therapy" (by decide)⟩
  · have h := claim_C6.1 ["data"] "Therapy" "Module01" "Day01" "CoachAlex01.json"
      ['0', '1'] ['0', '1'] (by decide) (by decide) (by decide) (by decide) (by decide)
      (by decide) (by decide)
    simpa using h
  · exact claim_C6.2.1 ["T", "ModuleA1", "Day01", "p.json"] (by decide)
      (fun h => by
        have hc := (module_check_iff "ModuleA1").mpr h
        revert hc
        decide)
  · exact claim_C6.2.2.1 ["T", "Module01", "DayX", "p.json"] (by decide)
      (fun h => by
        have hc := (day_check_iff "DayX").mpr h
        revert hc
        decide)

/-! ### Turn-schema validation facts (claim C7) -/

/-- A record that lacks the `role` key or the `text` key fails the
`validJSON` check (both fields are required, in every pydantic version). -/
theorem validJSON_ok_of_missing (item : JRecord)
    (h : item.lookup "role" = none ∨ item.lookup "text" = none) :
    validJSON_ok item = false := by
  rcases h with h | h
  · simp [validJSON_ok, h]
  · simp [validJSON_ok, h]

/-- A record with string `role` and `text` and a `seq` that is absent,
null, an integer, or an integer-parseable string passes the `validJSON`
check. -/
theorem validJSON_ok_of_good (item : JRecord)
    (hr : ∃ s, item.lookup "role" = some (.str s))
    (ht : ∃ s, item.lookup "text" = some (.str s))
    (hs : item.lookup "seq" = none ∨ item.lookup "seq" = some .null ∨
      (∃ n : Int, item.lookup "seq" = some (.int n)) ∨
      (∃ s, item.lookup "seq" = some (.str s) ∧ intParseable s = true)) :
    validJSON_ok item = true := by
  obtain ⟨r, hr⟩ := hr
  obtain ⟨t, ht⟩ := ht
  rcases hs with h | h | ⟨n, h⟩ | ⟨s, h, hps⟩ <;> simp [validJSON_ok, hr, ht, h]
  exact hps

theorem validateScript_false_iff (script : List JRecord) :
    validateScript script = false ↔ ∃ item ∈ script, validJSON_ok item = false := by
  unfold validateScript
  induction script with
  | nil => simp
  | cons item rest ih =>
      rw [List.all_cons, Bool.and_eq_false_iff, ih]
      constructor
      · rintro (h | ⟨x, hx, hfx⟩)
        · exact ⟨item, List.mem_cons_self _ _, h⟩
        · exact ⟨x, List.mem_cons_of_mem _ hx, hfx⟩
      · rintro ⟨x, hx, hfx⟩
        rcases List.mem_cons.mp hx with rfl | hx'
        · exact Or.inl hfx
        · exact Or.inr ⟨x, hx', hfx⟩

/-- C7 counterexample: a record whose `role` and `text` are both strings
still fails validation (and the import raises the schema error) when its
legacy `seq` field holds a value not convertible to an integer, such as
the string "later" — the claim's "records satisfying role: string and
text: string never cause a validation failure" is false for the code. -/
theorem claim_C7_counterexample :
    (∃ s, ([(("role" : String), JValue.str "user"), ("text", JValue.str "hi"),
        ("seq", JValue.str "later")] : JRecord).lookup "role" = some (.str s)) ∧
    (∃ s, ([(("role" : String), JValue.str "user"), ("text", JValue.str "hi"),
        ("seq", JValue.str "later")] : JRecord).lookup "text" = some (.str s)) ∧
    validJSON_ok [(("role" : String), JValue.str "user"), ("text", JValue.str "hi"),
        ("seq", JValue.str "later")] = false ∧
    (import_file (fun _ => "") 0 0 ["T", "Module01", "Day01", "p.json"]
        [[(("role" : String), JValue.str "user"), ("text", JValue.str "hi"),
          ("seq", JValue.str "later")]] Graph.empty).result =
      .error (.turnSchema "One of the required keys is missing") := by
  refine ⟨⟨"user", rfl⟩, ⟨"hi", rfl⟩, rfl, ?_⟩
  decide

/-- C7 (amended): on a well-formed path, the import raises the
TurnSchemaError whenever some record lacks the `role` key or the `text`
key, and it never fails — the import succeeds — when every record has a
string `role`, a string `text`, and a `seq` that is absent, null, an
integer, or an integer-parseable string (the legacy coercion pydantic
applies to `seq: Optional[int]`).  Together with the counterexample
(a non-convertible `seq` such as "later" does fail), this replaces the
claim's "role: string and text: string never cause a validation
failure". -/
theorem claim_C7 (gen : Nat → String) (ctr now : Nat) (paths : List String)
    (script : List JRecord) (g : Graph) (c : Coords)
    (hp : parsePath paths = .ok c) :
    ((∃ item ∈ script, item.lookup "role" = none ∨ item.lookup "text" = none) →
      (import_file gen ctr now paths script g).result =
        .error (.turnSchema "One of the required keys is missing")) ∧
    ((∀ item ∈ script,
        (∃ s, item.lookup "role" = some (.str s)) ∧
        (∃ s, item.lookup "text" = some (.str s)) ∧
        (item.lookup "seq" = none ∨ item.lookup "seq" = some .null ∨
          (∃ n : Int, item.lookup "seq" = some (.int n)) ∨
          (∃ s, item.lookup "seq" = some (.str s) ∧ intParseable s = true))) →
      (import_file gen ctr now paths script g).result = .ok (gen ctr)) := by
  constructor
  · rintro ⟨item, hmem, hbad⟩
    have hfalse : validJSON_ok item = false := validJSON_ok_of_missing item hbad
    have hv : validateScript script = false :=
      (validateScript_false_iff script).mpr ⟨item, hmem, hfalse⟩
    rw [import_file_schemaError gen ctr now paths script g c hp hv]
  · intro hall
    have hv : validateScript script = true :=
      List.all_eq_true.mpr fun item hmem =>
        validJSON_ok_of_good item (hall item hmem).1 (hall item hmem).2.1
          (hall item hmem).2.2
    rw [import_file_ok gen ctr now paths script g c hp hv]

/-- Witness for C7 at a concrete path: a script whose record misses
`text` hits the error direction, and a script whose record carries the
legacy string `seq` value "123" (accepted by the coercion) hits the
success direction. -/
theorem claim_C7_witness :
    (((∃ item ∈ ([[(("role" : String), JValue.str "user")]] : List JRecord),
        item.lookup "role" = none ∨ item.lookup "text" = none) →
      (import_file (fun _ => "") 0 0 ["T", "Module01", "Day01", "p.json"]
          [[(("role" : String), JValue.str "user")]] Graph.empty).result =
        .error (.turnSchema "One of the required keys is missing")) ∧
    ((∀ item ∈ ([[(("role" : String), JValue.str "user")]] : List JRecord),
        (∃ s, item.lookup "role" = some (.str s)) ∧
        (∃ s, item.lookup "text" = some (.str s)) ∧
        (item.lookup "seq" = none ∨ item.lookup "seq" = some .null ∨
          (∃ n : Int, item.lookup "seq" = some (.int n)) ∨
          (∃ s, item.lookup "seq" = some (.str s) ∧ intParseable s = true))) →
      (import_file (fun _ => "") 0 0 ["T", "Module01", "Day01", "p.json"]
          [[(("role" : String), JValue.str "user")]] Graph.empty).result =
        .ok "")) ∧
    (((∃ item ∈ ([[(("role" : String), JValue.str "user"),
          ("text", JValue.str "hi"), ("seq", JValue.str "123")]] : List JRecord),
        item.lookup "role" = none ∨ item.lookup "text" = none) →
      (import_file (fun _ => "") 0 0 ["T", "Module01", "Day01", "p.json"]
          [[(("role" : String), JValue.str "user"), ("text", JValue.str "hi"),
            ("seq", JValue.str "123")]] Graph.empty).result =
        .error (.turnSchema "One of the required keys is missing")) ∧
    ((∀ item ∈ ([[(("role" : String), JValue.str "user"),
          ("text", JValue.str "hi"), ("seq", JValue.str "123")]] : List JRecord),
        (∃ s, item.lookup "role" = some (.str s)) ∧
        (∃ s, item.lookup "text" = some (.str s)) ∧
        (item.lookup "seq" = none ∨ item.lookup "seq" = some .null ∨
          (∃ n : Int, item.lookup "seq" = some (.int n)) ∨
          (∃ s, item.lookup "seq" = some (.str s) ∧ intParseable s = true))) →
      (import_file (fun _ => "") 0 0 ["T", "Module01", "Day01", "p.json"]
          [[(("role" : String), JValue.str "user"), ("text", JValue.str "hi"),
            ("seq", JValue.str "123")]] Graph.empty).result = .ok "")) :=
  ⟨claim_C7 (fun _ => "") 0 0 ["T", "Module01", "Day01", "p.json"]
      [[(("role" : String), JValue.str "user")]] Graph.empty
      { program_name := "T", program_seq := 0, module_seq := 1, day_seq := 1,
        persona_name := "p", persona_seq := 0 } (by decide),
   claim_C7 (fun _ => "") 0 0 ["T", "Module01", "Day01", "p.json"]
      [[(("role" : String), JValue.str "user"), ("text", JValue.str "hi"),
        ("seq", JValue.str "123")]] Graph.empty
      { program_name := "T", program_seq := 0, module_seq := 1, day_seq := 1,
        persona_name := "p", persona_seq := 0 } (by decide)⟩

/-- C3 counterexample: on the single-segment path `lonely_script.json`
the invocation does raise a PathFormatError, but the graph-store
connection has already been opened and verified when it does — the
recorded trace of the failing run is exactly the connection I/O — so the
error is not raised "before opening or verifying any graph-store
connection". -/
theorem claim_C3_counterexample :
    (import_file (fun _ => "") 0 0 ["lonely_script.json"] [] Graph.empty).result =
      .error (.pathFormat
        "json_file_path must contain at least four components: <Program>/<Module##>/<Day##>/<persona>.json") ∧
    (import_file (fun _ => "") 0 0 ["lonely_script.json"] [] Graph.empty).events =
      [.verifyConnectivity, .openSession] := by
  constructor
  · decide
  · decide

/-- C3 (amended): for every malformed input path the invocation raises a
PathFormatError and attempts no graph mutation — the script file is never
read, no statement is issued, and the graph is unchanged — but the error
is raised after the graph-store connection has been opened and verified:
the effect trace is exactly the connection I/O. -/
theorem claim_C3 (gen : Nat → String) (ctr now : Nat) (paths : List String)
    (script : List JRecord) (g : Graph) (e : ImpError)
    (hp : parsePath paths = .error e) :
    (∃ m, e = .pathFormat m) ∧
    (import_file gen ctr now paths script g).result = .error e ∧
    (import_file gen ctr now paths script g).graph = g ∧
    (import_file gen ctr now paths script g).events =
      [.verifyConnectivity, .openSession] := by
  rw [import_file_pathError gen ctr now paths script g e hp]
  exact ⟨parsePath_error_kind paths e hp, rfl, rfl, rfl⟩

/-- Witness for C3 at the spec's own scenario path. -/
theorem claim_C3_witness :
    (∃ m, (ImpError.pathFormat
        "json_file_path must contain at least four components: <Program>/<Module##>/<Day##>/<persona>.json") =
      .pathFormat m) ∧
    (import_file (fun _ => "x") 3 9 ["lonely_script.json"] [] Graph.empty).result =
      .error (.pathFormat
        "json_file_path must contain at least four components: <Program>/<Module##>/<Day##>/<persona>.json") ∧
    (import_file (fun _ => "x") 3 9 ["lonely_script.json"] [] Graph.empty).graph = Graph.empty ∧
    (import_file (fun _ => "x") 3 9 ["lonely_script.json"] [] Graph.empty).events =
      [.verifyConnectivity, .openSession] :=
  claim_C3 (fun _ => "x") 3 9 ["lonely_script.json"] [] Graph.empty _ (by decide)

/-- C4 (code bug): on a validation failure the session and driver opened
at the start of the invocation are never released — the failing run's
trace holds the connection I/O and no close events — although on a
successful run both close events are emitted.  This contradicts the
guaranteed-cleanup contract (and the source's own docstrings, which
promise that session and driver are closed reliably on every exit path). -/
theorem claim_C4 :
    (import_file (fun _ => "") 0 0 ["lonely_script.json"] [] Graph.empty).events =
      [.verifyConnectivity, .openSession] ∧
    Event.closeSession ∉
      (import_file (fun _ => "") 0 0 ["lonely_script.json"] [] Graph.empty).events ∧
    Event.closeDriver ∉
      (import_file (fun _ => "") 0 0 ["lonely_script.json"] [] Graph.empty).events ∧
    (import_file (fun _ => "") 0 0 ["lonely_script.json"] [] Graph.empty).result =
      .error (.pathFormat
        "json_file_path must contain at least four components: <Program>/<Module##>/<Day##>/<persona>.json") ∧
    Event.closeSession ∈
      (import_file (fun _ => "") 0 0 ["T", "Module01", "Day01", "p.json"] [] Graph.empty).events ∧
    Event.closeDriver ∈
      (import_file (fun _ => "") 0 0 ["T", "Module01", "Day01", "p.json"] [] Graph.empty).events := by
  refine ⟨by decide, by decide, by decide, by decide, by decide, by decide⟩

/-- C5: when the path is well-formed but any record of the script fails
turn validation, the invocation raises the TurnSchemaError, issues no
graph statement, and leaves the graph exactly as it was — no partial
writes. -/
theorem claim_C5 (gen : Nat → String) (ctr now : Nat) (paths : List String)
    (script : List JRecord) (g : Graph) (c : Coords)
    (hp : parsePath paths = .ok c) (hv : validateScript script = false) :
    (import_file gen ctr now paths script g).result =
      .error (.turnSchema "One of the required keys is missing") ∧
    (import_file gen ctr now paths script g).graph = g ∧
    (∀ s : Stmt, Event.run s ∉ (import_file gen ctr now paths script g).events) := by
  rw [import_file_schemaError gen ctr now paths script g c hp hv]
  refine ⟨rfl, rfl, ?_⟩
  intro s hs
  simp at hs

/-- Witness for C5: a record missing `text` on the canonical path leaves
an arbitrary pre-existing graph untouched. -/
theorem claim_C5_witness :
    (import_file (fun _ => "u") 2 5 ["T", "Module01", "Day01", "p.json"]
        [[(("role" : String), JValue.str "user")]] (catGraph
          { program_name := "T", program_seq := 0, module_seq := 1, day_seq := 1,
            persona_name := "p", persona_seq := 0 } "r0" 0)).result =
      .error (.turnSchema "One of the required keys is missing") ∧
    (import_file (fun _ => "u") 2 5 ["T", "Module01", "Day01", "p.json"]
        [[(("role" : String), JValue.str "user")]] (catGraph
          { program_name := "T", program_seq := 0, module_seq := 1, day_seq := 1,
            persona_name := "p", persona_seq := 0 } "r0" 0)).graph =
      catGraph { program_name := "T", program_seq := 0, module_seq := 1, day_seq := 1,
                 persona_name := "p", persona_seq := 0 } "r0" 0 ∧
    (∀ s : Stmt, Event.run s ∉
      (import_file (fun _ => "u") 2 5 ["T", "Module01", "Day01", "p.json"]
        [[(("role" : String), JValue.str "user")]] (catGraph
          { program_name := "T", program_seq := 0, module_seq := 1, day_seq := 1,
            persona_name := "p", persona_seq := 0 } "r0" 0)).events) :=
  claim_C5 (fun _ => "u") 2 5 ["T", "Module01", "Day01", "p.json"]
    [[(("role" : String), JValue.str "user")]]
    (catGraph { program_name := "T", program_seq := 0, module_seq := 1, day_seq := 1,
                persona_name := "p", persona_seq := 0 } "r0" 0)
    { program_name := "T", program_seq := 0, module_seq := 1, day_seq := 1,
      persona_name := "p", persona_seq := 0 } (by decide) (by decide)

/-- C10: importing an empty script over a well-formed path succeeds
rather than rejecting it: the full catalog hierarchy (nodes and edges) is
upserted, a fresh root turn is created with its ROOTS edge from the
persona, no script turn and no CHILD_OF edge is created, and a job id is
returned. -/
theorem claim_C10 (gen : Nat → String) (ctr now : Nat) (paths : List String) (c : Coords)
    (hp : parsePath paths = .ok c) :
    (import_file gen ctr now paths [] Graph.empty).result = .ok (gen ctr) ∧
    (import_file gen ctr now paths [] Graph.empty).graph.programs =
      [(c.program_name, c.program_seq)] ∧
    (import_file gen ctr now paths [] Graph.empty).graph.modules =
      [(c.module_seq, c.module_seq)] ∧
    (import_file gen ctr now paths [] Graph.empty).graph.days =
      [(c.day_seq, c.day_seq)] ∧
    (import_file gen ctr now paths [] Graph.empty).graph.personas =
      [(c.persona_name, c.persona_seq)] ∧
    (import_file gen ctr now paths [] Graph.empty).graph.hasModule =
      [(c.program_name, (c.module_seq, c.module_seq))] ∧
    (import_file gen ctr now paths [] Graph.empty).graph.hasDay =
      [((c.module_seq, c.module_seq), (c.day_seq, c.day_seq))] ∧
    (import_file gen ctr now paths [] Graph.empty).graph.hasPersona =
      [((c.day_seq, c.day_seq), (c.persona_name, c.persona_seq))] ∧
    (import_file gen ctr now paths [] Graph.empty).graph.turns =
      [rootNode (gen (ctr + 1)) now] ∧
    (import_file gen ctr now paths [] Graph.empty).graph.roots =
      [((c.persona_name, c.persona_seq), gen (ctr + 1))] ∧
    (import_file gen ctr now paths [] Graph.empty).graph.childOf = [] := by
  have hres : (import_file gen ctr now paths [] Graph.empty).result = .ok (gen ctr) := by
    rw [import_file_ok gen ctr now paths [] Graph.empty c hp rfl]
  have hg : (import_file gen ctr now paths [] Graph.empty).graph =
      catGraph c (gen (ctr + 1)) now := by
    have h1 : (import_file gen ctr now paths [] Graph.empty).graph =
        runAll Graph.empty (catalogStmts c (gen (ctr + 1)) now ++
          turnStmts gen now (ctr + 2) (gen (ctr + 1)) []) := by
      rw [import_file_ok gen ctr now paths [] Graph.empty c hp rfl]
    rw [h1, show turnStmts gen now (ctr + 2) (gen (ctr + 1)) [] = [] from rfl,
      List.append_nil, runAll_catalog_empty]
  rw [hres, hg]
  exact ⟨rfl, rfl, rfl, rfl, rfl, rfl, rfl, rfl, rfl, rfl, rfl⟩

/-- Witness for C10 at the canonical path with an empty payload. -/
theorem claim_C10_witness :
    (import_file (fun n => String.mk (List.replicate (n + 1) 'a')) 0 7
        ["Therapy", "Module01", "Day01", "CoachAlex01.json"] [] Graph.empty).result =
      .ok "a" ∧
    (import_file (fun n => String.mk (List.replicate (n + 1) 'a')) 0 7
        ["Therapy", "Module01", "Day01", "CoachAlex01.json"] [] Graph.empty).graph.programs =
      [("Therapy", 0)] ∧
    (import_file (fun n => String.mk (List.replicate (n + 1) 'a')) 0 7
        ["Therapy", "Module01", "Day01", "CoachAlex01.json"] [] Graph.empty).graph.modules =
      [(1, 1)] ∧
    (import_file (fun n => String.mk (List.replicate (n + 1) 'a')) 0 7
        ["Therapy", "Module01", "Day01", "CoachAlex01.json"] [] Graph.empty).graph.days =
      [(1, 1)] ∧
    (import_file (fun n => String.mk (List.replicate (n + 1) 'a')) 0 7
        ["Therapy", "Module01", "Day01", "CoachAlex01.json"] [] Graph.empty).graph.personas =
      [("CoachAlex01", 1)] ∧
    (import_file (fun n => String.mk (List.replicate (n + 1) 'a')) 0 7
        ["Therapy", "Module01", "Day01", "CoachAlex01.json"] [] Graph.empty).graph.hasModule =
      [("Therapy", (1, 1))] ∧
    (import_file (fun n => String.mk (List.replicate (n + 1) 'a')) 0 7
        ["Therapy", "Module01", "Day01", "CoachAlex01.json"] [] Graph.empty).graph.hasDay =
      [((1, 1), (1, 1))] ∧
    (import_file (fun n => String.mk (List.replicate (n + 1) 'a')) 0 7
        ["Therapy", "Module01", "Day01", "CoachAlex01.json"] [] Graph.empty).graph.hasPersona =
      [((1, 1), ("CoachAlex01", 1))] ∧
    (import_file (fun n => String.mk (List.replicate (n + 1) 'a')) 0 7
        ["Therapy", "Module01", "Day01", "CoachAlex01.json"] [] Graph.empty).graph.turns =
      [rootNode "aa" 7] ∧
    (import_file (fun n => String.mk (List.replicate (n + 1) 'a')) 0 7
        ["Therapy", "Module01", "Day01", "CoachAlex01.json"] [] Graph.empty).graph.roots =
      [(("CoachAlex01", 1), "aa")] ∧
    (import_file (fun n => String.mk (List.replicate (n + 1) 'a')) 0 7
        ["Therapy", "Module01", "Day01", "CoachAlex01.json"] [] Graph.empty).graph.childOf =
      [] :=
  claim_C10 (fun n => String.mk (List.replicate (n + 1) 'a')) 0 7
    ["Therapy", "Module01", "Day01", "CoachAlex01.json"]
    { program_name := "Therapy", program_seq := 0, module_seq := 1, day_seq := 1,
      persona_name := "CoachAlex01", persona_seq := 1 } (by decide)

theorem chain_idx_shift (k j : Nat) : k + 1 + j = k + (j + 1) := by omega

theorem chain_parent_if (gen : Nat → String) (k : Nat) (parent : String) (j : Nat) :
    (if j = 0 then gen k else gen (k + (j + 1) - 1)) =
      (if j + 1 = 0 then parent else gen (k + (j + 1) - 1)) := by
  cases j with
  | zero => simp
  | succ m => rw [if_neg (Nat.succ_ne_zero m), if_neg (Nat.succ_ne_zero (m + 1))]

theorem chainTurns_getElem (gen : Nat → String) (now : Nat) :
    ∀ (script : List JRecord) (k : Nat) (parent : String) (i : Nat) (item : JRecord),
      script[i]? = some item →
      (chainTurns gen now k parent script)[i]? =
        some (scriptNode (gen (k + i)) (fieldStr item "role") (fieldStr item "text")
          (if i = 0 then parent else gen (k + i - 1)) now) := by
  intro script
  induction script with
  | nil => intro k parent i item h; simp at h
  | cons it rest ih =>
      intro k parent i item h
      cases i with
      | zero =>
          rw [List.getElem?_cons_zero] at h
          injection h with h
          subst h
          simp [chainTurns]
      | succ j =>
          rw [List.getElem?_cons_succ] at h
          rw [chainTurns, List.getElem?_cons_succ, ih (k + 1) (gen k) j item h, chain_idx_shift k j]
          rw [chain_parent_if gen k parent j]

theorem chainEdges_getElem (gen : Nat → String) :
    ∀ (script : List JRecord) (k : Nat) (parent : String) (i : Nat), i < script.length →
      (chainEdges gen k parent script)[i]? =
        some (gen (k + i), if i = 0 then parent else gen (k + i - 1)) := by
  intro script
  induction script with
  | nil => intro k parent i h; simp at h
  | cons it rest ih =>
      intro k parent i h
      cases i with
      | zero => simp [chainEdges]
      | succ j =>
          have hj : j < rest.length := by
            simp only [List.length_cons] at h
            omega
          rw [chainEdges, List.getElem?_cons_succ, ih (k + 1) (gen k) j hj, chain_idx_shift k j]
          rw [chain_parent_if gen k parent j]

theorem chainTurns_filter_isNone (gen : Nat → String) (now : Nat) (script : List JRecord)
    (k : Nat) (parent : String) :
    (chainTurns gen now k parent script).filter (fun t => t.text = none) = [] := by
  rw [List.filter_eq_nil_iff]
  intro t ht
  obtain ⟨s, hs⟩ := chainTurns_text gen now script k parent t ht
  simp [hs]

theorem chainTurns_filter_isSome (gen : Nat → String) (now : Nat) (script : List JRecord)
    (k : Nat) (parent : String) :
    (chainTurns gen now k parent script).filter (fun t => !decide (t.text = none)) =
      chainTurns gen now k parent script := by
  rw [List.filter_eq_self]
  intro t ht
  obtain ⟨s, hs⟩ := chainTurns_text gen now script k parent t ht
  simp [hs]

/-- C2: a validated script of N records persists as exactly one root turn
plus N non-root turns and N CHILD_OF edges forming a single linear path:
the root is at position 0, the i-th script turn carries record i's role
and text, accepted = true, a creation timestamp and a parent id equal to
the previous turn's id (the root's id for the first record), and its
CHILD_OF edge points at that same parent. -/
theorem claim_C2 (gen : Nat → String) (ctr now : Nat) (paths : List String)
    (script : List JRecord) (c : Coords)
    (hp : parsePath paths = .ok c) (hv : validateScript script = true)
    (hinj : ∀ i j, ctr ≤ i → ctr ≤ j → i ≠ j → gen i ≠ gen j) :
    (import_file gen ctr now paths script Graph.empty).graph.turns.length =
      script.length + 1 ∧
    ((import_file gen ctr now paths script Graph.empty).graph.turns.filter
        (fun t => t.text = none)).length = 1 ∧
    ((import_file gen ctr now paths script Graph.empty).graph.turns.filter
        (fun t => t.text ≠ none)).length = script.length ∧
    (import_file gen ctr now paths script Graph.empty).graph.childOf.length =
      script.length ∧
    (import_file gen ctr now paths script Graph.empty).graph.turns[0]? =
      some (rootNode (gen (ctr + 1)) now) ∧
    (∀ i item, script[i]? = some item →
      (import_file gen ctr now paths script Graph.empty).graph.turns[i + 1]? =
        some (scriptNode (gen (ctr + 2 + i)) (fieldStr item "role") (fieldStr item "text")
          (if i = 0 then gen (ctr + 1) else gen (ctr + 2 + i - 1)) now)) ∧
    (∀ i, i < script.length →
      (import_file gen ctr now paths script Graph.empty).graph.childOf[i]? =
        some (gen (ctr + 2 + i),
          if i = 0 then gen (ctr + 1) else gen (ctr + 2 + i - 1))) := by
  rw [import_file_empty_graph gen ctr now paths script c hp hv hinj]
  refine ⟨?_, ?_, ?_, ?_, ?_, ?_, ?_⟩
  · simp [importedGraph, chainTurns_length]
  · simp [importedGraph, List.filter_cons, rootNode, chainTurns_filter_isNone]
  · simp [importedGraph, List.filter_cons, rootNode, chainTurns_filter_isSome,
      chainTurns_length]
  · simp [importedGraph, chainEdges_length]
  · simp [importedGraph]
  · intro i item hi
    simp only [importedGraph, List.getElem?_cons_succ]
    exact chainTurns_getElem gen now script (ctr + 2) (gen (ctr + 1)) i item hi
  · intro i hi
    simp only [importedGraph]
    exact chainEdges_getElem gen script (ctr + 2) (gen (ctr + 1)) i hi

/-- Distinct indices give distinct ids under the length-coded id stream
used by the witnesses. -/
theorem repGen_inj (i j : Nat) (h : i ≠ j) :
    String.mk (List.replicate (i + 1) 'a') ≠ String.mk (List.replicate (j + 1) 'a') := by
  intro hc
  apply h
  have hlen : (List.replicate (i + 1) 'a').length = (List.replicate (j + 1) 'a').length :=
    congrArg (fun s : String => s.data.length) hc
  simpa using hlen

/-- Witness for C2 at the spec's canonical two-turn scenario. -/
theorem claim_C2_witness :
    (import_file (fun n => String.mk (List.replicate (n + 1) 'a')) 0 7
        ["Therapy", "Module01", "Day01", "CoachAlex01.json"]
        [[(("role" : String), JValue.str "system"), ("text", JValue.str "Welcome")],
         [(("role" : String), JValue.str "user"), ("text", JValue.str "Hi")]]
        Graph.empty).graph.turns.length = 2 + 1 ∧
    ((import_file (fun n => String.mk (List.replicate (n + 1) 'a')) 0 7
        ["Therapy", "Module01", "Day01", "CoachAlex01.json"]
        [[(("role" : String), JValue.str "system"), ("text", JValue.str "Welcome")],
         [(("role" : String), JValue.str "user"), ("text", JValue.str "Hi")]]
        Graph.empty).graph.turns.filter (fun t => t.text = none)).length = 1 ∧
    ((import_file (fun n => String.mk (List.replicate (n + 1) 'a')) 0 7
        ["Therapy", "Module01", "Day01", "CoachAlex01.json"]
        [[(("role" : String), JValue.str "system"), ("text", JValue.str "Welcome")],
         [(("role" : String), JValue.str "user"), ("text", JValue.str "Hi")]]
        Graph.empty).graph.turns.filter (fun t => t.text ≠ none)).length = 2 ∧
    (import_file (fun n => String.mk (List.replicate (n + 1) 'a')) 0 7
        ["Therapy", "Module01", "Day01", "CoachAlex01.json"]
        [[(("role" : String), JValue.str "system"), ("text", JValue.str "Welcome")],
         [(("role" : String), JValue.str "user"), ("text", JValue.str "Hi")]]
        Graph.empty).graph.childOf.length = 2 ∧
    (import_file (fun n => String.mk (List.replicate (n + 1) 'a')) 0 7
        ["Therapy", "Module01", "Day01", "CoachAlex01.json"]
        [[(("role" : String), JValue.str "system"), ("text", JValue.str "Welcome")],
         [(("role" : String), JValue.str "user"), ("text", JValue.str "Hi")]]
        Graph.empty).graph.turns[0]? =
      some (rootNode (String.mk (List.replicate 2 'a')) 7) ∧
    (∀ i item,
      ([[(("role" : String), JValue.str "system"), ("text", JValue.str "Welcome")],
        [(("role" : String), JValue.str "user"), ("text", JValue.str "Hi")]] :
          List JRecord)[i]? = some item →
      (import_file (fun n => String.mk (List.replicate (n + 1) 'a')) 0 7
        ["Therapy", "Module01", "Day01", "CoachAlex01.json"]
        [[(("role" : String), JValue.str "system"), ("text", JValue.str "Welcome")],
         [(("role" : String), JValue.str "user"), ("text", JValue.str "Hi")]]
        Graph.empty).graph.turns[i + 1]? =
        some (scriptNode (String.mk (List.replicate (0 + 2 + i + 1) 'a'))
          (fieldStr item "role") (fieldStr item "text")
          (if i = 0 then String.mk (List.replicate 2 'a')
            else String.mk (List.replicate (0 + 2 + i - 1 + 1) 'a')) 7)) ∧
    (∀ i, i < 2 →
      (import_file (fun n => String.mk (List.replicate (n + 1) 'a')) 0 7
        ["Therapy", "Module01", "Day01", "CoachAlex01.json"]
        [[(("role" : String), JValue.str "system"), ("text", JValue.str "Welcome")],
         [(("role" : String), JValue.str "user"), ("text", JValue.str "Hi")]]
        Graph.empty).graph.childOf[i]? =
        some (String.mk (List.replicate (0 + 2 + i + 1) 'a'),
          if i = 0 then String.mk (List.replicate 2 'a')
            else String.mk (List.replicate (0 + 2 + i - 1 + 1) 'a'))) :=
  claim_C2 (fun n => String.mk (List.replicate (n + 1) 'a')) 0 7
    ["Therapy", "Module01", "Day01", "CoachAlex01.json"]
    [[(("role" : String), JValue.str "system"), ("text", JValue.str "Welcome")],
     [(("role" : String), JValue.str "user"), ("text", JValue.str "Hi")]]
    { program_name := "Therapy", program_seq := 0, module_seq := 1, day_seq := 1,
      persona_name := "CoachAlex01", persona_seq := 1 }
    (by decide) (by decide) (fun i j _ _ hij => repGen_inj i j hij)

/-- C1: importing the same valid catalog path twice leaves exactly one
Program, Module, Day and Persona node for the coordinate tuple (the
catalog MERGEs are idempotent), but each invocation creates a brand-new
root turn and a new ROOTS edge from the persona: after two imports there
are exactly two root turns, with distinct ids, and two ROOTS edges
targeting them. -/
theorem claim_C1 (gen : Nat → String) (ctr now now' : Nat) (paths : List String)
    (s1 s2 : List JRecord) (c : Coords)
    (hp : parsePath paths = .ok c) (hv1 : validateScript s1 = true)
    (hv2 : validateScript s2 = true)
    (hinj : ∀ i j, ctr ≤ i → ctr ≤ j → i ≠ j → gen i ≠ gen j) :
    (import_file gen (import_file gen ctr now paths s1 Graph.empty).ctr now' paths s2
        (import_file gen ctr now paths s1 Graph.empty).graph).graph.programs =
      [(c.program_name, c.program_seq)] ∧
    (import_file gen (import_file gen ctr now paths s1 Graph.empty).ctr now' paths s2
        (import_file gen ctr now paths s1 Graph.empty).graph).graph.modules =
      [(c.module_seq, c.module_seq)] ∧
    (import_file gen (import_file gen ctr now paths s1 Graph.empty).ctr now' paths s2
        (import_file gen ctr now paths s1 Graph.empty).graph).graph.days =
      [(c.day_seq, c.day_seq)] ∧
    (import_file gen (import_file gen ctr now paths s1 Graph.empty).ctr now' paths s2
        (import_file gen ctr now paths s1 Graph.empty).graph).graph.personas =
      [(c.persona_name, c.persona_seq)] ∧
    ((import_file gen (import_file gen ctr now paths s1 Graph.empty).ctr now' paths s2
        (import_file gen ctr now paths s1 Graph.empty).graph).graph.turns.filter
          (fun t => t.text = none)).map TurnNode.id =
      [gen (ctr + 1), gen (ctr + 2 + s1.length + 1)] ∧
    gen (ctr + 1) ≠ gen (ctr + 2 + s1.length + 1) ∧
    (import_file gen (import_file gen ctr now paths s1 Graph.empty).ctr now' paths s2
        (import_file gen ctr now paths s1 Graph.empty).graph).graph.roots =
      [((c.persona_name, c.persona_seq), gen (ctr + 1)),
       ((c.persona_name, c.persona_seq), gen (ctr + 2 + s1.length + 1))] := by
  rw [import_file_twice_graph gen ctr now now' paths s1 s2 c hp hv1 hv2 hinj]
  have hne : gen (ctr + 1) ≠ gen (ctr + 2 + s1.length + 1) :=
    hinj (ctr + 1) (ctr + 2 + s1.length + 1) (by omega) (by omega) (by omega)
  refine ⟨rfl, rfl, rfl, rfl, ?_, hne, rfl⟩
  simp [catGraph, List.filter_append, List.filter_cons, rootNode,
    chainTurns_filter_isNone]

/-- Witness for C1: the canonical path imported twice with one-record and
two-record scripts. -/
theorem claim_C1_witness :
    (import_file (fun n => String.mk (List.replicate (n + 1) 'a'))
        (import_file (fun n => String.mk (List.replicate (n + 1) 'a')) 0 7
          ["Therapy", "Module01", "Day01", "CoachAlex01.json"]
          [[(("role" : String), JValue.str "system"), ("text", JValue.str "Welcome")]]
          Graph.empty).ctr 9
        ["Therapy", "Module01", "Day01", "CoachAlex01.json"]
        [[(("role" : String), JValue.str "user"), ("text", JValue.str "Hi")]]
        (import_file (fun n => String.mk (List.replicate (n + 1) 'a')) 0 7
          ["Therapy", "Module01", "Day01", "CoachAlex01.json"]
          [[(("role" : String), JValue.str "system"), ("text", JValue.str "Welcome")]]
          Graph.empty).graph).graph.programs = [("Therapy", 0)] ∧
    (import_file (fun n => String.mk (List.replicate (n + 1) 'a'))
        (import_file (fun n => String.mk (List.replicate (n + 1) 'a')) 0 7
          ["Therapy", "Module01", "Day01", "CoachAlex01.json"]
          [[(("role" : String), JValue.str "system"), ("text", JValue.str "Welcome")]]
          Graph.empty).ctr 9
        ["Therapy", "Module01", "Day01", "CoachAlex01.json"]
        [[(("role" : String), JValue.str "user"), ("text", JValue.str "Hi")]]
        (import_file (fun n => String.mk (List.replicate (n + 1) 'a')) 0 7
          ["Therapy", "Module01", "Day01", "CoachAlex01.json"]
          [[(("role" : String), JValue.str "system"), ("text", JValue.str "Welcome")]]
          Graph.empty).graph).graph.modules = [(1, 1)] ∧
    (import_file (fun n => String.mk (List.replicate (n + 1) 'a'))
        (import_file (fun n => String.mk (List.replicate (n + 1) 'a')) 0 7
          ["Therapy", "Module01", "Day01", "CoachAlex01.json"]
          [[(("role" : String), JValue.str "system"), ("text", JValue.str "Welcome")]]
          Graph.empty).ctr 9
        ["Therapy", "Module01", "Day01", "CoachAlex01.json"]
        [[(("role" : String), JValue.str "user"), ("text", JValue.str "Hi")]]
        (import_file (fun n => String.mk (List.replicate (n + 1) 'a')) 0 7
          ["Therapy", "Module01", "Day01", "CoachAlex01.json"]
          [[(("role" : String), JValue.str "system"), ("text", JValue.str "Welcome")]]
          Graph.empty).graph).graph.days = [(1, 1)] ∧
    (import_file (fun n => String.mk (List.replicate (n + 1) 'a'))
        (import_file (fun n => String.mk (List.replicate (n + 1) 'a')) 0 7
          ["Therapy", "Module01", "Day01", "CoachAlex01.json"]
          [[(("role" : String), JValue.str "system"), ("text", JValue.str "Welcome")]]
          Graph.empty).ctr 9
        ["Therapy", "Module01", "Day01", "CoachAlex01.json"]
        [[(("role" : String), JValue.str "user"), ("text", JValue.str "Hi")]]
        (import_file (fun n => String.mk (List.replicate (n + 1) 'a')) 0 7
          ["Therapy", "Module01", "Day01", "CoachAlex01.json"]
          [[(("role" : String), JValue.str "system"), ("text", JValue.str "Welcome")]]
          Graph.empty).graph).graph.personas = [("CoachAlex01", 1)] ∧
    ((import_file (fun n => String.mk (List.replicate (n + 1) 'a'))
        (import_file (fun n => String.mk (List.replicate (n + 1) 'a')) 0 7
          ["Therapy", "Module01", "Day01", "CoachAlex01.json"]
          [[(("role" : String), JValue.str "system"), ("text", JValue.str "Welcome")]]
          Graph.empty).ctr 9
        ["Therapy", "Module01", "Day01", "CoachAlex01.json"]
        [[(("role" : String), JValue.str "user"), ("text", JValue.str "Hi")]]
        (import_file (fun n => String.mk (List.replicate (n + 1) 'a')) 0 7
          ["Therapy", "Module01", "Day01", "CoachAlex01.json"]
          [[(("role" : String), JValue.str "system"), ("text", JValue.str "Welcome")]]
          Graph.empty).graph).graph.turns.filter (fun t => t.text = none)).map TurnNode.id =
      [String.mk (List.replicate 2 'a'), String.mk (List.replicate 5 'a')] ∧
    String.mk (List.replicate 2 'a') ≠ String.mk (List.replicate 5 'a') ∧
    (import_file (fun n => String.mk (List.replicate (n + 1) 'a'))
        (import_file (fun n => String.mk (List.replicate (n + 1) 'a')) 0 7
          ["Therapy", "Module01", "Day01", "CoachAlex01.json"]
          [[(("role" : String), JValue.str "system"), ("text", JValue.str "Welcome")]]
          Graph.empty).ctr 9
        ["Therapy", "Module01", "Day01", "CoachAlex01.json"]
        [[(("role" : String), JValue.str "user"), ("text", JValue.str "Hi")]]
        (import_file (fun n => String.mk (List.replicate (n + 1) 'a')) 0 7
          ["Therapy", "Module01", "Day01", "CoachAlex01.json"]
          [[(("role" : String), JValue.str "system"), ("text", JValue.str "Welcome")]]
          Graph.empty).graph).graph.roots =
      [(("CoachAlex01", 1), String.mk (List.replicate 2 'a')),
       (("CoachAlex01", 1), String.mk (List.replicate 5 'a'))] :=
  claim_C1 (fun n => String.mk (List.replicate (n + 1) 'a')) 0 7 9
    ["Therapy", "Module01", "Day01", "CoachAlex01.json"]
    [[(("role" : String), JValue.str "system"), ("text", JValue.str "Welcome")]]
    [[(("role" : String), JValue.str "user"), ("text", JValue.str "Hi")]]
    { program_name := "Therapy", program_seq := 0, module_seq := 1, day_seq := 1,
      persona_name := "CoachAlex01", persona_seq := 1 }
    (by decide) (by decide) (by decide) (fun i j _ _ hij => repGen_inj i j hij)

/-- An id stream whose index-0 string has the 36-character UUID length
and whose strings are pairwise distinct (all lengths differ). -/
def idStream36 (n : Nat) : String :=
  if n = 0 then String.mk (List.replicate 36 'a') else String.mk (List.replicate (37 + n) 'a')

theorem idStream36_inj (i j : Nat) (h : i ≠ j) : idStream36 i ≠ idStream36 j := by
  intro hc
  have hlen : (idStream36 i).data.length = (idStream36 j).data.length := by rw [hc]
  unfold idStream36 at hlen
  rcases Nat.eq_zero_or_pos i with hi | hi <;> rcases Nat.eq_zero_or_pos j with hj | hj
  · exact h (hi.trans hj.symm)
  · subst hi
    rw [if_pos rfl, if_neg (by omega)] at hlen
    simp at hlen
    omega
  · subst hj
    rw [if_neg (by omega), if_pos rfl] at hlen
    simp at hlen
    omega
  · rw [if_neg (by omega), if_neg (by omega)] at hlen
    simp at hlen
    omega

/-- C8: on success the pipeline returns the token drawn first from the id
stream — a value independent of the graph it mutates, and of 36-character
length under the UUID length fact; a second sequential invocation draws a
strictly later index and so never repeats the token; and the token
differs from the id of the root turn and of every persisted turn. -/
theorem claim_C8 (gen : Nat → String) (ctr now now' : Nat)
    (paths paths2 : List String) (script script2 : List JRecord) (c c2 : Coords)
    (hp : parsePath paths = .ok c) (hv : validateScript script = true)
    (hp2 : parsePath paths2 = .ok c2) (hv2 : validateScript script2 = true)
    (hlen : (gen ctr).length = 36)
    (hinj : ∀ i j, ctr ≤ i → ctr ≤ j → i ≠ j → gen i ≠ gen j) :
    (∀ g : Graph, (import_file gen ctr now paths script g).result = .ok (gen ctr)) ∧
    (gen ctr).length = 36 ∧
    (∀ g : Graph,
      (import_file gen (import_file gen ctr now paths script g).ctr now' paths2 script2
          (import_file gen ctr now paths script g).graph).result =
        .ok (gen (ctr + 2 + script.length)) ∧
      gen (ctr + 2 + script.length) ≠ gen ctr) ∧
    (∀ t ∈ (import_file gen ctr now paths script Graph.empty).graph.turns,
      t.id ≠ gen ctr) := by
  have hctr : ∀ g : Graph,
      (import_file gen ctr now paths script g).ctr = ctr + 2 + script.length := by
    intro g
    rw [import_file_ok gen ctr now paths script g c hp hv]
  refine ⟨?_, hlen, ?_, ?_⟩
  · intro g
    rw [import_file_ok gen ctr now paths script g c hp hv]
  · intro g
    constructor
    · rw [hctr g, import_file_ok gen (ctr + 2 + script.length) now' paths2 script2 _ c2 hp2 hv2]
    · exact hinj (ctr + 2 + script.length) ctr (by omega) (by omega) (by omega)
  · intro t ht
    rw [import_file_empty_graph gen ctr now paths script c hp hv hinj] at ht
    simp only [importedGraph] at ht
    rcases List.mem_cons.mp ht with rfl | hmem
    · simpa [rootNode] using hinj (ctr + 1) ctr (by omega) (by omega) (by omega)
    · obtain ⟨i, hi, hid⟩ := chainTurns_id gen now script (ctr + 2) (gen (ctr + 1)) t hmem
      rw [hid]
      exact hinj (ctr + 2 + i) ctr (by omega) (by omega) (by omega)

/-- Witness for C8: the canonical path imported twice under the
36-character id stream. -/
theorem claim_C8_witness :
    (∀ g : Graph, (import_file idStream36 0 7
        ["Therapy", "Module01", "Day01", "CoachAlex01.json"]
        [[(("role" : String), JValue.str "system"), ("text", JValue.str "Welcome")]]
        g).result = .ok (idStream36 0)) ∧
    (idStream36 0).length = 36 ∧
    (∀ g : Graph,
      (import_file idStream36 (import_file idStream36 0 7
          ["Therapy", "Module01", "Day01", "CoachAlex01.json"]
          [[(("role" : String), JValue.str "system"), ("text", JValue.str "Welcome")]]
          g).ctr 9
          ["Therapy", "Module01", "Day01", "CoachAlex01.json"]
          [[(("role" : String), JValue.str "user"), ("text", JValue.str "Hi")]]
          (import_file idStream36 0 7
            ["Therapy", "Module01", "Day01", "CoachAlex01.json"]
            [[(("role" : String), JValue.str "system"), ("text", JValue.str "Welcome")]]
            g).graph).result = .ok (idStream36 (0 + 2 + 1)) ∧
      idStream36 (0 + 2 + 1) ≠ idStream36 0) ∧
    (∀ t ∈ (import_file idStream36 0 7
        ["Therapy", "Module01", "Day01", "CoachAlex01.json"]
        [[(("role" : String), JValue.str "system"), ("text", JValue.str "Welcome")]]
        Graph.empty).graph.turns, t.id ≠ idStream36 0) :=
  claim_C8 idStream36 0 7 9
    ["Therapy", "Module01", "Day01", "CoachAlex01.json"]
    ["Therapy", "Module01", "Day01", "CoachAlex01.json"]
    [[(("role" : String), JValue.str "system"), ("text", JValue.str "Welcome")]]
    [[(("role" : String), JValue.str "user"), ("text", JValue.str "Hi")]]
    { program_name := "Therapy", program_seq := 0, module_seq := 1, day_seq := 1,
      persona_name := "CoachAlex01", persona_seq := 1 }
    { program_name := "Therapy", program_seq := 0, module_seq := 1, day_seq := 1,
      persona_name := "CoachAlex01", persona_seq := 1 }
    (by decide) (by decide) (by decide) (by decide) (by decide)
    (fun i j _ _ hij => idStream36_inj i j hij)

/-! ### Non-interference of the legacy seq field and extra fields (C9) -/

/-- Two records differ only in the value or presence of a numeric legacy
`seq` field and in unrecognized extra fields: their `role` and `text`
lookups agree, and any `seq` either is absent or holds an integer. -/
def sameTurnContent (a b : JRecord) : Prop :=
  a.lookup "role" = b.lookup "role" ∧
  a.lookup "text" = b.lookup "text" ∧
  (a.lookup "seq" = none ∨ ∃ n : Int, a.lookup "seq" = some (.int n)) ∧
  (b.lookup "seq" = none ∨ ∃ n : Int, b.lookup "seq" = some (.int n))

theorem validJSON_ok_congr (a b : JRecord) (h : sameTurnContent a b) :
    validJSON_ok a = validJSON_ok b := by
  obtain ⟨hr, ht, hsa, hsb⟩ := h
  have ea : (match a.lookup "seq" with
      | none => true
      | some (.int _) => true
      | some .null => true
      | some (.str s) => intParseable s
      | some (.bool _) => false) = true := by
    rcases hsa with h' | ⟨n, h'⟩ <;> rw [h']
  have eb : (match b.lookup "seq" with
      | none => true
      | some (.int _) => true
      | some .null => true
      | some (.str s) => intParseable s
      | some (.bool _) => false) = true := by
    rcases hsb with h' | ⟨n, h'⟩ <;> rw [h']
  unfold validJSON_ok
  rw [hr, ht, ea, eb]

theorem validateScript_congr (s1 s2 : List JRecord)
    (h : List.Forall₂ sameTurnContent s1 s2) :
    validateScript s1 = validateScript s2 := by
  induction h with
  | nil => rfl
  | cons hab hrest ih =>
      show validateScript (_ :: _) = validateScript (_ :: _)
      simp only [validateScript, List.all_cons] at ih ⊢
      rw [validJSON_ok_congr _ _ hab, ih]

theorem fieldStr_congr (a b : JRecord) (key : String)
    (h : a.lookup key = b.lookup key) : fieldStr a key = fieldStr b key := by
  unfold fieldStr
  rw [h]

theorem turnStmts_congr (gen : Nat → String) (now : Nat) (s1 s2 : List JRecord)
    (h : List.Forall₂ sameTurnContent s1 s2) :
    ∀ (k : Nat) (parent : String),
      turnStmts gen now k parent s1 = turnStmts gen now k parent s2 := by
  induction h with
  | nil => intro k parent; rfl
  | cons hab hrest ih =>
      intro k parent
      show turnStmts gen now k parent (_ :: _) = turnStmts gen now k parent (_ :: _)
      simp only [turnStmts]
      rw [fieldStr_congr _ _ "role" hab.1, fieldStr_congr _ _ "text" hab.2.1,
        ih (k + 1) (gen k)]

/-- C9: payloads that differ only in the values or presence of the legacy
numeric `seq` field, or in unrecognized extra fields (with `role` and
`text` identical record by record), produce identical invocations: the
same effect trace (hence the same graph statements), the same result, the
same counter, and the same final graph. -/
theorem claim_C9 (gen : Nat → String) (ctr now : Nat) (paths : List String)
    (g : Graph) (s1 s2 : List JRecord)
    (h : List.Forall₂ sameTurnContent s1 s2) :
    import_file gen ctr now paths s1 g = import_file gen ctr now paths s2 g := by
  rcases hpp : parsePath paths with e | c
  · simp only [import_file, hpp]
  · simp only [import_file, hpp]
    rw [← validateScript_congr s1 s2 h,
      turnStmts_congr gen now s1 s2 h (ctr + 2) (gen (ctr + 1)), h.length_eq]

/-- Witness for C9: one record with `seq` and an extra field, one bare. -/
theorem claim_C9_witness :
    import_file (fun n => String.mk (List.replicate (n + 1) 'a')) 0 7
        ["Therapy", "Module01", "Day01", "CoachAlex01.json"]
        [[(("role" : String), JValue.str "system"), ("text", JValue.str "Welcome"),
          ("seq", JValue.int 4), ("mood", JValue.str "calm")]] Graph.empty =
      import_file (fun n => String.mk (List.replicate (n + 1) 'a')) 0 7
        ["Therapy", "Module01", "Day01", "CoachAlex01.json"]
        [[(("text" : String), JValue.str "Welcome"), ("role", JValue.str "system")]]
        Graph.empty :=
  claim_C9 (fun n => String.mk (List.replicate (n + 1) 'a')) 0 7
    ["Therapy", "Module01", "Day01", "CoachAlex01.json"] Graph.empty
    [[(("role" : String), JValue.str "system"), ("text", JValue.str "Welcome"),
      ("seq", JValue.int 4), ("mood", JValue.str "calm")]]
    [[(("text" : String), JValue.str "Welcome"), ("role", JValue.str "system")]]
    (List.Forall₂.cons ⟨rfl, rfl, Or.inr ⟨4, rfl⟩, Or.inl rfl⟩ List.Forall₂.nil)
